import Mathlib

/-!
Shallow embedding of the Mermaid Studio render-validate-recover pipeline.

Sources embedded here:
- `MermaidRenderer` component (src/unnamed/part_000): the render effect
  (`renderDiagram` with its `isMounted` staleness flag), the pan/zoom
  viewport state and its handlers (`handleWheel`, `zoomIn`, `zoomOut`,
  `resetView`, `handleMouseDown`, `handleMouseMove`, `handleMouseUp`).
- `App` component (src/App.tsx): `handleMermaidError`, `handleMermaidSuccess`,
  `handleFix`, and the two fix buttons (header "Fix with AI" and the
  error-toast "Auto-Fix").
- src/services/gemini.ts (the version with the key guard, lines 71-162):
  `isAIEnabled`, the module-level client initialisation, `cleanResponse`,
  `generateMermaidCode`, `fixMermaidCode`.

Numeric scale/offset values are modelled as exact rationals; the external
compiler (mermaid) and the correction service are modelled as oracle
parameters, since the repository delegates both to external packages.
-/

namespace MermaidStudio

/-- Log levels, from src/types.ts `LogLevel`. -/
inductive LogLevel where
  | INFO
  | SUCCESS
  | WARNING
  | ERROR
deriving DecidableEq, Repr

/-- A log entry as produced by `addLog` in src/App.tsx: level, message and
optional details. The random `id` and wall-clock `timestamp` fields carry no
information relevant to the claims and are omitted. -/
structure LogEntry where
  level : LogLevel
  message : String
  details : Option String
deriving DecidableEq, Repr

/-- JavaScript whitespace recognised by `String.prototype.trim` (the
common code points: tab, LF, VT, FF, CR, space, NBSP, line/paragraph
separator, BOM). -/
def jsIsWhitespace (c : Char) : Bool :=
  c = ' ' || c = '\t' || c = '\n' || c = '\r' || c.val = 11 || c.val = 12 ||
  c.val = 0xA0 || c.val = 0x2028 || c.val = 0x2029 || c.val = 0xFEFF

/-- JavaScript `String.prototype.trim`: drop leading and trailing whitespace. -/
def jsTrim (s : String) : String :=
  String.mk (((s.toList.dropWhile jsIsWhitespace).reverse.dropWhile
    jsIsWhitespace).reverse)

/-! ## Viewport Controller (MermaidRenderer pan/zoom state) -/

/-- `zoomIn` scale update from part_000: `setScale(s => Math.min(5, s * 1.2))`. -/
def zoomInScale (s : ℚ) : ℚ := min 5 (s * 1.2)

/-- `zoomOut` scale update from part_000: `setScale(s => Math.max(0.1, s / 1.2))`. -/
def zoomOutScale (s : ℚ) : ℚ := max 0.1 (s / 1.2)

/-- `handleWheel` scale update from part_000:
`delta = -e.deltaY * 0.001; newScale = Math.min(Math.max(0.1, scale + delta), 5)`. -/
def wheelScale (scale deltaY : ℚ) : ℚ :=
  min (max 0.1 (scale + -deltaY * 0.001)) 5

/-- The MermaidRenderer viewport state: `pan`, `scale`, `isDragging`,
`dragStart` (a ref). -/
structure ViewState where
  panX : ℚ
  panY : ℚ
  scale : ℚ
  isDragging : Bool
  dragStartX : ℚ
  dragStartY : ℚ
deriving DecidableEq, Repr

/-- Initial viewport state: `pan = {0,0}`, `scale = 1`, no drag session. -/
def initView : ViewState :=
  { panX := 0, panY := 0, scale := 1, isDragging := false,
    dragStartX := 0, dragStartY := 0 }

/-- The viewport operations a user can perform (wheel zoom, the two zoom
buttons, the drag handlers, reset). -/
inductive ViewOp where
  | wheel (deltaY : ℚ)
  | zoomInBtn
  | zoomOutBtn
  | mouseDown (x y : ℚ)
  | mouseMove (x y : ℚ)
  | mouseUp
  | reset
deriving DecidableEq, Repr

/-- One step of the viewport controller, following the handlers in
part_000 (`handleWheel`, `zoomIn`, `zoomOut`, `handleMouseDown`,
`handleMouseMove`, `handleMouseUp`/`onMouseLeave`, `resetView`). -/
def applyViewOp (s : ViewState) : ViewOp → ViewState
  | .wheel d => { s with scale := wheelScale s.scale d }
  | .zoomInBtn => { s with scale := zoomInScale s.scale }
  | .zoomOutBtn => { s with scale := zoomOutScale s.scale }
  | .mouseDown x y =>
      { s with isDragging := true,
               dragStartX := x - s.panX, dragStartY := y - s.panY }
  | .mouseMove x y =>
      if s.isDragging then
        { s with panX := x - s.dragStartX, panY := y - s.dragStartY }
      else s
  | .mouseUp => { s with isDragging := false }
  | .reset => { s with scale := 1, panX := 0, panY := 0 }

/-- Run a sequence of viewport operations. -/
def runView (ops : List ViewOp) (s : ViewState) : ViewState :=
  ops.foldl applyViewOp s

/-- The scale invariant of the spec: `scale ∈ [0.1, 5.0]`. -/
def scaleInv (s : ViewState) : Prop := 0.1 ≤ s.scale ∧ s.scale ≤ 5

/-! ## Render Engine Adapter (renderDiagram in part_000) -/

/-- The shapes a thrown mermaid error can take, as discriminated by the
catch branch of `renderDiagram`: a plain string, an `Error` instance (with
a `message`), an object with a `str` field, or anything else. -/
inductive JsError where
  | str (s : String)
  | errorObj (message : String)
  | objWithStr (s : String)
  | other
deriving DecidableEq, Repr

/-- Message extraction in the catch branch of `renderDiagram`:
string errors are used verbatim, `Error` instances contribute `.message`,
objects with a `.str` field contribute it, anything else falls back to
"Unknown rendering error". -/
def extractMessage : JsError → String
  | .str s => s
  | .errorObj m => m
  | .objWithStr s => s
  | .other => "Unknown rendering error"

/-- Outcome of one `mermaid.parse` + `mermaid.render` call (the external
engine is an oracle; the repository only consumes its result). -/
inductive CompileResult where
  | success (svg : String)
  | failure (e : JsError)
deriving DecidableEq, Repr

/-- If `cs` starts with a match of the regex `max-width:\s*[^;"]+;`, return
the remainder after the matched span, else `none`. The regex's `\s*` and
greedy `[^;"]+` together match exactly: the literal `max-width:`, then a
nonempty run of characters that are neither `;` nor `"`, then `;`
(whitespace characters are themselves neither `;` nor `"`). -/
def matchMaxWidth (cs : List Char) : Option (List Char) :=
  if cs.take 10 = "max-width:".toList then
    let rest := cs.drop 10
    let body := rest.takeWhile (fun c => !(c = ';' || c = '"'))
    let after := rest.dropWhile (fun c => !(c = ';' || c = '"'))
    if body.isEmpty then none
    else
      match after with
      | ';' :: tail => some tail
      | _ => none
  else none

/-- Left-to-right global replacement of `max-width:\s*[^;"]+;` matches by
the empty string, driven by a fuel argument bounded by the list length. -/
def removeMaxWidthAux : Nat → List Char → List Char
  | 0, cs => cs
  | _ + 1, [] => []
  | fuel + 1, c :: cs =>
      match matchMaxWidth (c :: cs) with
      | some rest => removeMaxWidthAux fuel rest
      | none => c :: removeMaxWidthAux fuel cs

/-- The artifact normalisation in `renderDiagram`:
`svg.replace(/max-width:\s*[^;"]+;/g, '')`. -/
def cleanMaxWidth (svg : String) : String :=
  String.mk (removeMaxWidthAux svg.toList.length svg.toList)

/-! ## Combined application state (App.tsx + MermaidRenderer) -/

/-- The state the pipeline claims are about: `code` and `error` and `logs`
and `isProcessing` live in `App`, `svgContent` and the viewport `pan`/`scale`
live in `MermaidRenderer`. -/
structure AppState where
  code : String
  svgContent : String
  error : Option String
  logs : List LogEntry
  panX : ℚ
  panY : ℚ
  scale : ℚ
  isProcessing : Bool
deriving DecidableEq, Repr

/-- `handleMermaidError` in src/App.tsx: set the error and append an
ERROR log entry carrying the message. -/
def handleMermaidError (errorMsg : String) (st : AppState) : AppState :=
  { st with error := some errorMsg,
            logs := st.logs ++ [⟨.ERROR, "Rendering Failed", some errorMsg⟩] }

/-- `handleMermaidSuccess` in src/App.tsx: only when an error is currently
set, clear it and append a SUCCESS log entry; otherwise do nothing. -/
def handleMermaidSuccess (st : AppState) : AppState :=
  match st.error with
  | some _ =>
      { st with error := none,
                logs := st.logs ++
                  [⟨.SUCCESS, "Diagram Rendered Successfully", none⟩] }
  | none => st

/-- Application of a resolved compile result inside the `isMounted` guard of
`renderDiagram`: on success, store the max-width-stripped svg, invoke
`onSuccess` (= `handleMermaidSuccess`), and reset pan and scale; on failure,
invoke `onError` (= `handleMermaidError`) with the extracted message. -/
def resolveApp (r : CompileResult) (st : AppState) : AppState :=
  match r with
  | .success svg =>
      let st1 := { st with svgContent := cleanMaxWidth svg }
      let st2 := handleMermaidSuccess st1
      { st2 with panX := 0, panY := 0, scale := 1 }
  | .failure e => handleMermaidError (extractMessage e) st

/-- One full pipeline run of `renderDiagram` for the current `code`, with
the external engine given as an oracle `compile`. Returns the new state and
whether a compile was attempted. The guard `if (!code.trim()) return`
prevents any compile, state change or log for empty/whitespace-only code. -/
def pipelineRun (compile : String → CompileResult) (st : AppState) :
    AppState × Bool :=
  if jsTrim st.code = "" then (st, false)
  else (resolveApp (compile st.code) st, true)

/-! ## Race model for two overlapping pipeline runs (claim about staleness)

`renderDiagram` lives in a `useEffect` keyed on `code`; each effect run
closes over its own `isMounted` flag, and React executes the previous run's
cleanup (`isMounted = false`) before starting the next run. So when the
source changes while run 1's compile is in flight, run 2's start invalidates
run 1's flag, and run 1's resolution is applied only if its flag is still
true. -/

/-- Events of the two-run race: run 2 starts (running run 1's effect
cleanup first), run 1's compile resolves, run 2's compile resolves. -/
inductive RaceEvent where
  | start2
  | resolve1
  | resolve2
deriving DecidableEq, Repr

/-- State of the race: the app state plus the two `isMounted` flags. -/
structure RaceState where
  app : AppState
  mounted1 : Bool
  mounted2 : Bool
deriving DecidableEq, Repr

/-- One race event. Resolutions apply their result only under their own
`isMounted` flag; starting run 2 runs run 1's effect cleanup, which sets
run 1's flag to false (start itself mutates no app state: `renderDiagram`
does nothing before its first await). -/
def raceStep (r1 r2 : CompileResult) (s : RaceState) : RaceEvent → RaceState
  | .start2 => { s with mounted1 := false }
  | .resolve1 => if s.mounted1 then { s with app := resolveApp r1 s.app } else s
  | .resolve2 => if s.mounted2 then { s with app := resolveApp r2 s.app } else s

/-- Run a trace of race events. -/
def raceRun (r1 r2 : CompileResult) (t : List RaceEvent) (s : RaceState) :
    RaceState :=
  t.foldl (raceStep r1 r2) s

/-! ## Correction/generation service (src/services/gemini.ts, lines 71-162) -/

/-- `isAIEnabled` from gemini.ts:
`!!(apiKey && apiKey.length > 0 && apiKey !== 'undefined')`.
An absent key (`undefined`) and the empty string are both falsy. -/
def isAIEnabled (apiKey : Option String) : Bool :=
  match apiKey with
  | none => false
  | some k => !(k = "") && decide (0 < k.length) && !(k = "undefined")

/-- The module-level client: `let ai = null; if (isAIEnabled) ai = new
GoogleGenAI(...)`. Modelled as presence of a client token. -/
def aiClient (apiKey : Option String) : Option Unit :=
  if isAIEnabled apiKey then some () else none

/-- `cleanResponse` from gemini.ts: trim, strip a leading ```mermaid or
``` fence, strip a trailing ``` fence, trim again. -/
def cleanResponse (text : String) : String :=
  let cleaned := jsTrim text
  let cleaned :=
    if cleaned.startsWith "```mermaid" then cleaned.drop 10
    else if cleaned.startsWith "```" then cleaned.drop 3
    else cleaned
  let cleaned := if cleaned.endsWith "```" then cleaned.dropRight 3 else cleaned
  jsTrim cleaned

/-- Outcome of one `ai.models.generateContent` call: either it throws with
a message, or it returns a response whose `text` field may be absent. -/
inductive ServiceOutcome where
  | threw (msg : String)
  | ok (text : Option String)
deriving DecidableEq, Repr

/-- `fixMermaidCode` from gemini.ts, with the service call as an oracle
outcome. Returns the promise result plus the number of service calls made.
When the capability is disabled it rejects immediately with the fixed
message and makes no call; otherwise a thrown service error is re-thrown
(the catch logs and re-throws), and a returned response resolves with
`cleanResponse(response.text || '')` — an empty text is NOT an error. -/
def fixMermaidCode (apiKey : Option String) (service : ServiceOutcome) :
    Except String String × Nat :=
  if (aiClient apiKey).isNone || !(isAIEnabled apiKey) then
    (.error "AI features are disabled. API Key is missing.", 0)
  else
    match service with
    | .threw m => (.error m, 1)
    | .ok t => (.ok (cleanResponse (t.getD "")), 1)

/-- `generateMermaidCode` from gemini.ts: identical guard and result
handling as `fixMermaidCode` (only the prompt it sends differs, which the
oracle abstracts). -/
def generateMermaidCode (apiKey : Option String) (service : ServiceOutcome) :
    Except String String × Nat :=
  if (aiClient apiKey).isNone || !(isAIEnabled apiKey) then
    (.error "AI features are disabled. API Key is missing.", 0)
  else
    match service with
    | .threw m => (.error m, 1)
    | .ok t => (.ok (cleanResponse (t.getD "")), 1)

/-! ## Correction loop (handleFix in src/App.tsx) -/

/-- `handleFix` from src/App.tsx, run to completion with the service call's
outcome given as an oracle (the enabled path: the fix buttons are only
rendered when `isAIEnabled`). Guard: `if (!error) return`. Then an INFO log,
the awaited `fixMermaidCode`, and either `setCode(fixedCode)` plus a
SUCCESS log, or (catch) an ERROR log with `e.message || "Unknown error"`;
`isProcessing` is set for the duration and cleared in `finally`. -/
def handleFix (service : ServiceOutcome) (st : AppState) : AppState :=
  match st.error with
  | none => st
  | some err =>
      let stInfo : AppState :=
        { st with
          isProcessing := true,
          logs := st.logs ++
            [LogEntry.mk .INFO "AI Attempting to Fix Syntax..."
              (some ("Error context: " ++ err.take 100 ++ "..."))] }
      match service with
      | .threw m =>
          { stInfo with
            isProcessing := false,
            logs := stInfo.logs ++
              [LogEntry.mk .ERROR "Fix Failed"
                (some (if m = "" then "Unknown error" else m))] }
      | .ok t =>
          { stInfo with
            isProcessing := false,
            code := cleanResponse (t.getD ""),
            logs := stInfo.logs ++
              [LogEntry.mk .SUCCESS "Fix Applied"
                (some "The AI has updated the code. Verifying render...")] }

/-! ## Single-flight model for the fix buttons

`handleFix` is async: everything up to the `await fixMermaidCode(...)` runs
synchronously on invocation, and the call stays outstanding until the
service responds. The model below captures the invocation phase and counts
outstanding service calls, to examine re-entrant invocation through the two
UI entry points. -/

/-- Invocation-phase state: the active error, the `isProcessing` flag, and
how many service calls have been started but not yet resolved. -/
structure FixUIState where
  error : Option String
  isProcessing : Bool
  outstanding : Nat
deriving DecidableEq, Repr

/-- The synchronous prefix of `handleFix` (src/App.tsx lines 88-94): bail
out when no error is active; otherwise set `isProcessing` and start the
service call. There is no check of `isProcessing` in `handleFix` itself. -/
def handleFixInvoke (st : FixUIState) : FixUIState :=
  match st.error with
  | none => st
  | some _ => { st with isProcessing := true, outstanding := st.outstanding + 1 }

/-- Clicking the error-toast "Auto-Fix" button (src/App.tsx, rendered
whenever `error` is set and AI is enabled): its `onClick` is `handleFix`
and the button carries NO `disabled` attribute. -/
def autoFixClick (st : FixUIState) : FixUIState :=
  handleFixInvoke st

/-- Clicking the header "Fix with AI" button (src/App.tsx):
`disabled={!error || isProcessing}`, so the click only reaches `handleFix`
when an error is active and no processing is in flight. -/
def headerFixClick (st : FixUIState) : FixUIState :=
  if st.error.isSome && !st.isProcessing then handleFixInvoke st else st

/-! ## Concrete states used to instantiate the theorems -/

/-- A state with a displayed artifact and no active error. -/
def stDisplayedNoError : AppState :=
  { code := "graph TD\nA-->B", svgContent := "<svg>good</svg>", error := none,
    logs := [], panX := 3, panY := 4, scale := 2, isProcessing := false }

/-- A state in which the last compile failed: an error is active and the
previous artifact is still displayed. -/
def stFailed : AppState :=
  { code := "graph TD\nA->>>B", svgContent := "<svg>old</svg>",
    error := some "Parse error", logs := [], panX := 0, panY := 0,
    scale := 1, isProcessing := false }

/-- A state whose source is whitespace-only. -/
def stBlank : AppState :=
  { code := "   \n", svgContent := "<svg>old</svg>", error := some "Parse error",
    logs := [], panX := 0, panY := 0, scale := 1, isProcessing := false }

/-- A compile oracle that always succeeds with a fixed artifact. -/
def constCompile : String → CompileResult :=
  fun _ => .success "<svg>diagram</svg>"

/-! ## Theorems -/

/-- Every single viewport operation preserves the scale invariant. -/
lemma scaleInv_step (s : ViewState) (op : ViewOp) (h : scaleInv s) :
    scaleInv (applyViewOp s op) := by
  obtain ⟨h1, h2⟩ := h
  cases op with
  | wheel d =>
      refine ⟨?_, ?_⟩ <;> simp only [applyViewOp, wheelScale, scaleInv]
      · exact le_min (le_max_left _ _) (by norm_num)
      · exact min_le_right _ _
  | zoomInBtn =>
      refine ⟨?_, ?_⟩ <;> simp only [applyViewOp, zoomInScale, scaleInv]
      · exact le_min (by norm_num) (by nlinarith)
      · exact min_le_left _ _
  | zoomOutBtn =>
      refine ⟨?_, ?_⟩ <;> simp only [applyViewOp, zoomOutScale, scaleInv]
      · exact le_max_left _ _
      · refine max_le (by norm_num) ?_
        rw [div_le_iff₀ (by norm_num : (0 : ℚ) < 1.2)]
        linarith
  | mouseDown x y => exact ⟨h1, h2⟩
  | mouseMove x y =>
      simp only [applyViewOp]
      split <;> exact ⟨h1, h2⟩
  | mouseUp => exact ⟨h1, h2⟩
  | reset =>
      refine ⟨?_, ?_⟩ <;> norm_num [applyViewOp]

/-- The scale invariant is preserved by any sequence of viewport operations. -/
lemma scaleInv_run (ops : List ViewOp) (s : ViewState) (h : scaleInv s) :
    scaleInv (runView ops s) := by
  induction ops generalizing s with
  | nil => simpa [runView] using h
  | cons op tl ih =>
      simpa only [runView, List.foldl_cons] using
        ih (applyViewOp s op) (scaleInv_step s op h)

/-- Claim C2: for every sequence of viewport operations (wheel zoom, zoom-in
button, zoom-out button, drag, reset), the scale stays within [0.1, 5.0]
after every step, starting from the initial scale of 1. (The sequence is
arbitrary, so the bound holds at every intermediate step as well.) -/
theorem c2_scale_invariant (ops : List ViewOp) :
    0.1 ≤ (runView ops initView).scale ∧ (runView ops initView).scale ≤ 5 :=
  scaleInv_run ops initView ⟨by norm_num [initView, scaleInv], by norm_num [initView, scaleInv]⟩

/-- Claim C9, counterexample: at the in-range scale 5, `zoomIn` clamps at 5
and the following `zoomOut` lands at 25/6 ≈ 4.167, not at the original 5 —
far outside any floating-point tolerance. -/
theorem c9_counterexample :
    zoomOutScale (zoomInScale 5) = 25 / 6 ∧ zoomOutScale (zoomInScale 5) ≠ 5 := by
  constructor <;> norm_num [zoomInScale, zoomOutScale]

/-- Claim C9 (amended): for every scale s with 0.1 ≤ s whose zoom-in result
does not hit the upper clamp (s * 1.2 ≤ 5), `zoomIn` followed by `zoomOut`
returns the scale exactly to its original value. -/
theorem c9_zoom_roundtrip (s : ℚ) (h1 : 0.1 ≤ s) (h2 : s * 1.2 ≤ 5) :
    zoomOutScale (zoomInScale s) = s := by
  unfold zoomInScale zoomOutScale
  rw [min_eq_right h2]
  have h3 : s * 1.2 / 1.2 = s := by
    rw [mul_div_assoc]
    norm_num
  rw [h3, max_eq_right h1]

/-- Witness for C9's amended theorem at s = 1. -/
theorem c9_witness :
    (0.1 : ℚ) ≤ 1 ∧ (1 : ℚ) * 1.2 ≤ 5 ∧ zoomOutScale (zoomInScale 1) = 1 :=
  ⟨by norm_num, by norm_num, c9_zoom_roundtrip 1 (by norm_num) (by norm_num)⟩

/-- Resolving a compile result never changes the diagram source. -/
lemma resolveApp_code (r : CompileResult) (st : AppState) :
    (resolveApp r st).code = st.code := by
  cases r with
  | success svg =>
      cases h : st.error <;>
        simp [resolveApp, handleMermaidSuccess, h]
  | failure e => simp [resolveApp, handleMermaidError]

/-- Field values of a successful resolution: new (stripped) artifact, reset
viewport, cleared error. -/
lemma resolveApp_success_fields (svg : String) (st : AppState) :
    (resolveApp (.success svg) st).svgContent = cleanMaxWidth svg ∧
    (resolveApp (.success svg) st).panX = 0 ∧
    (resolveApp (.success svg) st).panY = 0 ∧
    (resolveApp (.success svg) st).scale = 1 ∧
    (resolveApp (.success svg) st).error = none := by
  cases h : st.error <;>
    simp [resolveApp, handleMermaidSuccess, h]

/-- Logs of a successful resolution: a SUCCESS entry is appended exactly
when an error was previously present. -/
lemma resolveApp_success_logs (svg : String) (st : AppState) :
    (st.error = none → (resolveApp (.success svg) st).logs = st.logs) ∧
    (∀ e, st.error = some e →
      (resolveApp (.success svg) st).logs =
        st.logs ++ [LogEntry.mk .SUCCESS "Diagram Rendered Successfully" none]) := by
  cases h : st.error <;>
    simp [resolveApp, handleMermaidSuccess, h]

/-- Claim C6: on every failed compile, the pipeline sets the RenderError to
the extracted adapter message, appends a failure log entry carrying that
message, and leaves the displayed artifact (and the viewport) untouched. -/
theorem c6_failure_effects (st : AppState) (e : JsError) :
    (resolveApp (.failure e) st).error = some (extractMessage e) ∧
    (resolveApp (.failure e) st).logs =
      st.logs ++ [LogEntry.mk .ERROR "Rendering Failed" (some (extractMessage e))] ∧
    (resolveApp (.failure e) st).svgContent = st.svgContent ∧
    (resolveApp (.failure e) st).panX = st.panX ∧
    (resolveApp (.failure e) st).panY = st.panY ∧
    (resolveApp (.failure e) st).scale = st.scale := by
  simp [resolveApp, handleMermaidError]

/-- Claim C5, counterexample: a successful compile from a state with no
active error emits NO notification at all — `handleMermaidSuccess` only
logs (and clears) when an error is present, so the claimed unconditional
success notification does not happen. -/
theorem c5_counterexample :
    (resolveApp (.success "<svg>new</svg>") stDisplayedNoError).logs =
      stDisplayedNoError.logs := by
  simp [resolveApp, handleMermaidSuccess, stDisplayedNoError]

/-- Claim C5 (amended): on every successful compile the pipeline, as one
unit, replaces the artifact with the max-width-stripped svg, resets the
viewport to (0, 0, 1), and ends with no RenderError; a success notification
is emitted (together with the clearing of the error) exactly when a
RenderError was previously present — with no prior error, no notification
is emitted. -/
theorem c5_success_effects (st : AppState) (svg : String) :
    (resolveApp (.success svg) st).svgContent = cleanMaxWidth svg ∧
    (resolveApp (.success svg) st).panX = 0 ∧
    (resolveApp (.success svg) st).panY = 0 ∧
    (resolveApp (.success svg) st).scale = 1 ∧
    (resolveApp (.success svg) st).error = none ∧
    (∀ e, st.error = some e →
      (resolveApp (.success svg) st).logs =
        st.logs ++ [LogEntry.mk .SUCCESS "Diagram Rendered Successfully" none]) ∧
    (st.error = none → (resolveApp (.success svg) st).logs = st.logs) := by
  obtain ⟨hs, hx, hy, hsc, he⟩ := resolveApp_success_fields svg st
  obtain ⟨hn, hl⟩ := resolveApp_success_logs svg st
  exact ⟨hs, hx, hy, hsc, he, hl, hn⟩

/-- Witness for C5's amended theorem at a state with an active error. -/
theorem c5_witness :
    stFailed.error = some "Parse error" ∧
    (resolveApp (.success "<svg>new</svg>") stFailed).error = none ∧
    (resolveApp (.success "<svg>new</svg>") stFailed).logs =
      stFailed.logs ++ [LogEntry.mk .SUCCESS "Diagram Rendered Successfully" none] :=
  ⟨rfl,
   (c5_success_effects stFailed "<svg>new</svg>").2.2.2.2.1,
   (c5_success_effects stFailed "<svg>new</svg>").2.2.2.2.2.1 "Parse error" rfl⟩

/-- Claim C8: a source whose JavaScript trim is empty causes no compile, no
state change, and no notification: the pipeline run is the identity. -/
theorem c8_empty_source_noop (compile : String → CompileResult) (st : AppState)
    (h : jsTrim st.code = "") :
    pipelineRun compile st = (st, false) := by
  simp [pipelineRun, h]

/-- Witness for C8 at a whitespace-only source. -/
theorem c8_witness :
    jsTrim stBlank.code = "" ∧
    pipelineRun constCompile stBlank = (stBlank, false) :=
  ⟨by decide, c8_empty_source_noop constCompile stBlank (by decide)⟩

/-- Claim C7: compiling the same valid (non-blank, successfully compiling)
source twice produces the same artifact both times, and each of the two
runs resets the viewport transform to (0, 0, 1). -/
theorem c7_compile_twice (compile : String → CompileResult) (st : AppState)
    (svg : String) (hne : ¬ jsTrim st.code = "")
    (hc : compile st.code = .success svg) :
    ((pipelineRun compile st).1).svgContent = cleanMaxWidth svg ∧
    ((pipelineRun compile (pipelineRun compile st).1).1).svgContent =
      cleanMaxWidth svg ∧
    ((pipelineRun compile st).1).panX = 0 ∧
    ((pipelineRun compile st).1).panY = 0 ∧
    ((pipelineRun compile st).1).scale = 1 ∧
    ((pipelineRun compile (pipelineRun compile st).1).1).panX = 0 ∧
    ((pipelineRun compile (pipelineRun compile st).1).1).panY = 0 ∧
    ((pipelineRun compile (pipelineRun compile st).1).1).scale = 1 := by
  have hrw : ∀ s : AppState, ¬ jsTrim s.code = "" → compile s.code = .success svg →
      (pipelineRun compile s).1 = resolveApp (.success svg) s := by
    intro s hn hcs
    simp [pipelineRun, hn, hcs]
  have h1 := hrw st hne hc
  have hcode : (resolveApp (CompileResult.success svg) st).code = st.code :=
    resolveApp_code _ st
  have h2 : (pipelineRun compile (pipelineRun compile st).1).1 =
      resolveApp (.success svg) (resolveApp (.success svg) st) := by
    rw [h1]
    exact hrw _ (by rw [hcode]; exact hne) (by rw [hcode]; exact hc)
  obtain ⟨a1, b1, c1, d1, _⟩ := resolveApp_success_fields svg st
  obtain ⟨a2, b2, c2, d2, _⟩ :=
    resolveApp_success_fields svg (resolveApp (.success svg) st)
  rw [h2, h1]
  exact ⟨a1, a2, b1, c1, d1, b2, c2, d2⟩

/-- Witness for C7 with an always-succeeding compile oracle. -/
theorem c7_witness :
    ¬ jsTrim stDisplayedNoError.code = "" ∧
    constCompile stDisplayedNoError.code = .success "<svg>diagram</svg>" ∧
    ((pipelineRun constCompile stDisplayedNoError).1).svgContent =
      cleanMaxWidth "<svg>diagram</svg>" ∧
    ((pipelineRun constCompile stDisplayedNoError).1).scale = 1 :=
  ⟨by decide, rfl,
   (c7_compile_twice constCompile stDisplayedNoError "<svg>diagram</svg>"
     (by decide) rfl).1,
   (c7_compile_twice constCompile stDisplayedNoError "<svg>diagram</svg>"
     (by decide) rfl).2.2.2.2.1⟩

/-- Claim C1: if the source changes while a compile is in flight, run 2's
start executes run 1's effect cleanup, so when run 1's compile resolves
afterwards (in either order relative to run 2's own resolution) it is
discarded, and the final application state is exactly the resolution of the
latest run against the pre-race state — independent of run 1's result. -/
theorem c1_stale_compile_discarded (app0 : AppState) (r1 r2 : CompileResult)
    (t : List RaceEvent)
    (h : t = [.start2, .resolve1, .resolve2] ∨ t = [.start2, .resolve2, .resolve1]) :
    (raceRun r1 r2 t ⟨app0, true, true⟩).app = resolveApp r2 app0 := by
  rcases h with h | h <;> subst h <;> simp [raceRun, raceStep]

/-- Witness for C1: a failing stale run 1 resolving after a successful run 2
has started leaves only run 2's success in the final state. -/
theorem c1_witness :
    (([RaceEvent.start2, .resolve1, .resolve2] : List RaceEvent) =
        [.start2, .resolve1, .resolve2] ∨
      ([RaceEvent.start2, .resolve1, .resolve2] : List RaceEvent) =
        [.start2, .resolve2, .resolve1]) ∧
    (raceRun (.failure .other) (.success "<svg>new</svg>")
        [.start2, .resolve1, .resolve2] ⟨stDisplayedNoError, true, true⟩).app =
      resolveApp (.success "<svg>new</svg>") stDisplayedNoError :=
  ⟨Or.inl rfl,
   c1_stale_compile_discarded stDisplayedNoError (.failure .other)
     (.success "<svg>new</svg>") [.start2, .resolve1, .resolve2] (Or.inl rfl)⟩

/-- Claim C3, counterexample: when the service resolves with empty text,
`fixMermaidCode` does NOT fail — it resolves with the empty string, so
`handleFix` overwrites the DiagramSource with "" and logs a SUCCESS entry;
no failure log entry is emitted at all. -/
theorem c3_counterexample :
    (handleFix (.ok (some "")) stFailed).code ≠ stFailed.code ∧
    ∀ e ∈ (handleFix (.ok (some "")) stFailed).logs, e.level ≠ LogLevel.ERROR := by
  decide

/-- Claim C3 (amended): when the fix invocation fails because the service
call throws, `handleFix` emits a "Fix Failed" ERROR log entry carrying the
service's message (falling back to "Unknown error" for an empty message)
and alters neither the DiagramSource nor the RenderError; a service
response with empty text, by contrast, resolves successfully — the source
is set to the empty string while the RenderError is still untouched. -/
theorem c3_fix_failure_effects (st : AppState) (err m : String)
    (h : st.error = some err) :
    (handleFix (.threw m) st).code = st.code ∧
    (handleFix (.threw m) st).error = st.error ∧
    (handleFix (.threw m) st).logs = st.logs ++
      [LogEntry.mk .INFO "AI Attempting to Fix Syntax..."
        (some ("Error context: " ++ err.take 100 ++ "...")),
       LogEntry.mk .ERROR "Fix Failed"
        (some (if m = "" then "Unknown error" else m))] ∧
    (handleFix (.ok (some "")) st).code = "" ∧
    (handleFix (.ok (some "")) st).error = st.error := by
  have hclean : cleanResponse "" = "" := by decide
  refine ⟨?_, ?_, ?_, ?_, ?_⟩ <;> simp [handleFix, h, hclean]

/-- Witness for C3's amended theorem: a thrown service error leaves source
and error untouched. -/
theorem c3_witness :
    stFailed.error = some "Parse error" ∧
    (handleFix (.threw "500 from service") stFailed).code = stFailed.code ∧
    (handleFix (.threw "500 from service") stFailed).error = stFailed.error :=
  ⟨rfl,
   (c3_fix_failure_effects stFailed "Parse error" "500 from service" rfl).1,
   (c3_fix_failure_effects stFailed "Parse error" "500 from service" rfl).2.1⟩

/-- Claim C4 evaluated at its failing input (the code bug): with an active
error and a fix already in flight (`isProcessing = true` after the first
click), a second click of the error-toast "Auto-Fix" button — which has no
`disabled` attribute — reaches `handleFix`, whose only guard is
`if (!error) return`, and starts a second service call: two calls are then
outstanding, not one. The header "Fix with AI" button, by contrast, is
disabled while processing and would have kept it at one. -/
theorem c4_double_autofix_two_outstanding :
    (autoFixClick (⟨some "Parse error", false, 0⟩ : FixUIState)).isProcessing = true ∧
    (autoFixClick (autoFixClick
      (⟨some "Parse error", false, 0⟩ : FixUIState))).outstanding = 2 ∧
    (headerFixClick (headerFixClick
      (⟨some "Parse error", false, 0⟩ : FixUIState))).outstanding = 1 := by
  decide

/-- String with nonzero length: a helper for the credential gate. -/
lemma length_pos_of_ne_empty (k : String) (h : k ≠ "") : 0 < k.length := by
  cases k with
  | mk data =>
      cases data with
      | nil => exact absurd rfl h
      | cons c cs => simp [String.length]

/-- Claim C10: `isAIEnabled` is true exactly when the credential is present,
non-empty and not the literal "undefined"; when it is false, both service
entry points reject immediately with the fixed message and make zero
service calls, for every possible service outcome. -/
theorem c10_ai_gate (apiKey : Option String) :
    (isAIEnabled apiKey = true ↔
      ∃ k, apiKey = some k ∧ k ≠ "" ∧ k ≠ "undefined") ∧
    (isAIEnabled apiKey = false →
      ∀ service : ServiceOutcome,
        fixMermaidCode apiKey service =
          (.error "AI features are disabled. API Key is missing.", 0) ∧
        generateMermaidCode apiKey service =
          (.error "AI features are disabled. API Key is missing.", 0)) := by
  constructor
  · cases apiKey with
    | none => simp [isAIEnabled]
    | some k =>
        simp only [isAIEnabled, Bool.and_eq_true, Bool.not_eq_true',
          decide_eq_false_iff_not, decide_eq_true_eq]
        constructor
        · rintro ⟨⟨hk1, _⟩, hk2⟩
          exact ⟨k, rfl, hk1, hk2⟩
        · rintro ⟨k2, hk, h1, h2⟩
          injection hk with h3
          subst h3
          exact ⟨⟨h1, length_pos_of_ne_empty k h1⟩, h2⟩
  · intro h service
    constructor <;> simp [fixMermaidCode, generateMermaidCode, aiClient, h]

/-- Witness for C10 at the literal "undefined" credential: the gate is off
and a fix request is rejected without a service call. -/
theorem c10_witness :
    isAIEnabled (some "undefined") = false ∧
    fixMermaidCode (some "undefined") (.ok (some "fixed")) =
      (.error "AI features are disabled. API Key is missing.", 0) :=
  ⟨by decide,
   ((c10_ai_gate (some "undefined")).2 (by decide) (.ok (some "fixed"))).1⟩

end MermaidStudio
